import Mathlib

/-!
Shallow embedding of the Star Wars favorites API (Flask + SQLAlchemy).

`src/models.py` defines four tables (User, People, Planet, Favorite); the
handlers in `src/app.py` are translated here as pure functions from a
`Store` (the relational state) and the request data to a new `Store`
paired with an HTTP response.  SQLAlchemy's `query.filter_by(...).first()`
becomes `List.find?`, `query.get(id)` a `find?` on the primary key,
`query.all()` the list itself, `session.add` an append (auto-increment
primary keys are modelled by explicit counters) and `session.delete` a
`List.erase` of the found row.
-/

namespace SW

/-- `class User(db.Model)` from models.py: id, unique email, password,
is_active. -/
structure User where
  id : Nat
  email : String
  password : String
  is_active : Bool
deriving DecidableEq, Repr

/-- `class People(db.Model)` from models.py. -/
structure People where
  id : Nat
  name : String
  birth_year : String
  gender : String
deriving DecidableEq, Repr

/-- `class Planet(db.Model)` from models.py. -/
structure Planet where
  id : Nat
  name : String
  climate : String
  terrain : String
deriving DecidableEq, Repr

/-- `class Favorite(db.Model)` from models.py: user_id non-nullable,
people_id and planet_id both nullable. -/
structure Favorite where
  id : Nat
  user_id : Nat
  people_id : Option Nat
  planet_id : Option Nat
deriving DecidableEq, Repr

/-- JSON values, the bodies produced by `jsonify`. -/
inductive Json where
  | null : Json
  | num (n : Nat) : Json
  | str (s : String) : Json
  | arr (elems : List Json) : Json
  | obj (fields : List (String × Json)) : Json
deriving Repr

/-- A nullable integer column serialized by jsonify. -/
def optNum : Option Nat → Json
  | none => Json.null
  | some n => Json.num n

/-- `User.serialize` from models.py: only id and email, never the
password. -/
def User.serialize (u : User) : Json :=
  Json.obj [("id", Json.num u.id), ("email", Json.str u.email)]

/-- `People.serialize` from models.py. -/
def People.serialize (p : People) : Json :=
  Json.obj [("id", Json.num p.id), ("name", Json.str p.name),
    ("birth_year", Json.str p.birth_year), ("gender", Json.str p.gender)]

/-- `Planet.serialize` from models.py. -/
def Planet.serialize (p : Planet) : Json :=
  Json.obj [("id", Json.num p.id), ("name", Json.str p.name),
    ("climate", Json.str p.climate), ("terrain", Json.str p.terrain)]

/-- `Favorite.serialize` from models.py. -/
def Favorite.serialize (f : Favorite) : Json :=
  Json.obj [("id", Json.num f.id), ("user_id", Json.num f.user_id),
    ("people_id", optNum f.people_id), ("planet_id", optNum f.planet_id)]

/-- The relational store: the four tables plus the auto-increment
counters for the primary keys the handlers create rows for. -/
structure Store where
  users : List User
  people : List People
  planets : List Planet
  favorites : List Favorite
  nextUserId : Nat
  nextFavId : Nat
deriving Repr

/-- An HTTP response: status code and JSON body. -/
structure Resp where
  status : Nat
  body : Json
deriving Repr

/-- Look up a field of a JSON object. -/
def Json.field (j : Json) (k : String) : Option Json :=
  match j with
  | Json.obj fields => (fields.find? (fun kv => kv.1 == k)).map (fun kv => kv.2)
  | _ => none

/-- `Favorite.query.filter_by(user_id=current_user_id).all()`: the rows
of the favorite table owned by `uid`, in insertion order. -/
def favoritesOf (s : Store) (uid : Nat) : List Favorite :=
  s.favorites.filter (fun f => f.user_id == uid)

/-- The 200 body returned by every favorites handler: the current user's
favorites, serialized. -/
def favListBody (s : Store) (uid : Nat) : Json :=
  Json.arr ((favoritesOf s uid).map Favorite.serialize)

/-- `signup` from app.py.  `data.get('email')` / `data.get('password')`
are `Option String` (absent key gives `none`); `if not email or not
password` is Python falsiness, true on `none` and on the empty string. -/
def signup (s : Store) (email password : Option String) : Store × Resp :=
  match email, password with
  | some e, some pw =>
    if e.isEmpty || pw.isEmpty then
      (s, ⟨400, Json.obj [("error", Json.str "Missing email or password")]⟩)
    else
      match s.users.find? (fun u => u.email == e) with
      | some _ => (s, ⟨400, Json.obj [("error", Json.str "Email already exists")]⟩)
      | none =>
        let u : User := ⟨s.nextUserId, e, pw, true⟩
        ({ s with users := s.users ++ [u], nextUserId := s.nextUserId + 1 },
         ⟨201, Json.obj [("msg", Json.str "User created")]⟩)
  | _, _ => (s, ⟨400, Json.obj [("error", Json.str "Missing email or password")]⟩)

/-- A bearer token as the Auth Guard sees it.  Modelled from the spec:
the JWT library (flask_jwt_extended) is not part of the repository; per
the spec a token is missing, malformed, or a signed carrier of a user
identity with an expiry, and signature validity is modelled by the token
recording the secret it was signed with. -/
inductive BearerToken where
  | missing : BearerToken
  | malformed (raw : String) : BearerToken
  | signed (identity : Nat) (sig : String) (expired : Bool) : BearerToken
deriving DecidableEq, Repr

/-- Modelled from the spec: `create_access_token(identity=...)` issues a
fresh, unexpired token signed with the server secret. -/
def create_access_token (secret : String) (identity : Nat) : BearerToken :=
  BearerToken.signed identity secret false

/-- Modelled from the spec: the Auth Guard (`@jwt_required()` +
`get_jwt_identity()`) decodes a bearer token, verifies signature and
expiry, and extracts the embedded user identity; it rejects a missing,
malformed, wrongly signed or expired token. -/
def verify_token (secret : String) : BearerToken → Option Nat
  | BearerToken.signed identity sig expired =>
    if sig == secret && !expired then some identity else none
  | _ => none

/-- The result of `login` from app.py: a status and, on success, the
issued access token. -/
structure LoginResult where
  status : Nat
  token : Option BearerToken
deriving Repr

/-- `login` from app.py: look up the first User matching the exact
(email, password) pair, 401 when none, else a token for that user's
id. -/
def login (secret : String) (s : Store) (email password : Option String) :
    Store × LoginResult :=
  match s.users.find? (fun u => email == some u.email && password == some u.password) with
  | none => (s, ⟨401, none⟩)
  | some u => (s, ⟨200, some (create_access_token secret u.id)⟩)

/-- `get_people` from app.py. -/
def get_people (s : Store) : Store × Resp :=
  (s, ⟨200, Json.arr (s.people.map People.serialize)⟩)

/-- `get_person` from app.py: `People.query.get(people_id)`. -/
def get_person (s : Store) (people_id : Nat) : Store × Resp :=
  match s.people.find? (fun p => p.id == people_id) with
  | none => (s, ⟨404, Json.obj [("error", Json.str "Person not found")]⟩)
  | some p => (s, ⟨200, p.serialize⟩)

/-- `get_planets` from app.py. -/
def get_planets (s : Store) : Store × Resp :=
  (s, ⟨200, Json.arr (s.planets.map Planet.serialize)⟩)

/-- `get_planet` from app.py: `Planet.query.get(planet_id)`. -/
def get_planet (s : Store) (planet_id : Nat) : Store × Resp :=
  match s.planets.find? (fun p => p.id == planet_id) with
  | none => (s, ⟨404, Json.obj [("error", Json.str "Planet not found")]⟩)
  | some p => (s, ⟨200, p.serialize⟩)

/-- `get_users` from app.py. -/
def get_users (s : Store) : Store × Resp :=
  (s, ⟨200, Json.arr (s.users.map User.serialize)⟩)

/-- `get_favorites` from app.py, after the Auth Guard has supplied
`current_user_id = get_jwt_identity()`. -/
def get_favorites (s : Store) (current_user_id : Nat) : Store × Resp :=
  (s, ⟨200, favListBody s current_user_id⟩)

/-- `get_favorites` with its `@jwt_required()` guard: 401 on a rejected
token, else the handler body at the extracted identity. -/
def get_favorites_guarded (secret : String) (s : Store) (tok : BearerToken) :
    Store × Resp :=
  match verify_token secret tok with
  | none => (s, ⟨401, Json.obj [("msg", Json.str "Unauthorized")]⟩)
  | some current_user_id => get_favorites s current_user_id

/-- `add_favorite_planet` from app.py. -/
def add_favorite_planet (s : Store) (current_user_id planet_id : Nat) :
    Store × Resp :=
  match s.planets.find? (fun p => p.id == planet_id) with
  | none => (s, ⟨404, Json.obj [("error", Json.str "Planet not found")]⟩)
  | some _ =>
    match s.favorites.find? (fun f => f.user_id == current_user_id && f.planet_id == some planet_id) with
    | some _ => (s, ⟨400, Json.obj [("msg", Json.str "Planet already in favorites")]⟩)
    | none =>
      let fav : Favorite := ⟨s.nextFavId, current_user_id, none, some planet_id⟩
      let s' : Store := { s with favorites := s.favorites ++ [fav], nextFavId := s.nextFavId + 1 }
      (s', ⟨200, favListBody s' current_user_id⟩)

/-- `add_favorite_person` from app.py. -/
def add_favorite_person (s : Store) (current_user_id people_id : Nat) :
    Store × Resp :=
  match s.people.find? (fun p => p.id == people_id) with
  | none => (s, ⟨404, Json.obj [("error", Json.str "Person not found")]⟩)
  | some _ =>
    match s.favorites.find? (fun f => f.user_id == current_user_id && f.people_id == some people_id) with
    | some _ => (s, ⟨400, Json.obj [("msg", Json.str "Person already in favorites")]⟩)
    | none =>
      let fav : Favorite := ⟨s.nextFavId, current_user_id, some people_id, none⟩
      let s' : Store := { s with favorites := s.favorites ++ [fav], nextFavId := s.nextFavId + 1 }
      (s', ⟨200, favListBody s' current_user_id⟩)

/-- `remove_favorite_planet` from app.py: find the user's favorite for
this planet, 404 if none, else delete that row. -/
def remove_favorite_planet (s : Store) (current_user_id planet_id : Nat) :
    Store × Resp :=
  match s.favorites.find? (fun f => f.user_id == current_user_id && f.planet_id == some planet_id) with
  | none => (s, ⟨404, Json.obj [("error", Json.str "Favorite planet not found")]⟩)
  | some fav =>
    let s' : Store := { s with favorites := s.favorites.erase fav }
    (s', ⟨200, favListBody s' current_user_id⟩)

/-- `remove_favorite_person` from app.py. -/
def remove_favorite_person (s : Store) (current_user_id people_id : Nat) :
    Store × Resp :=
  match s.favorites.find? (fun f => f.user_id == current_user_id && f.people_id == some people_id) with
  | none => (s, ⟨404, Json.obj [("error", Json.str "Favorite person not found")]⟩)
  | some fav =>
    let s' : Store := { s with favorites := s.favorites.erase fav }
    (s', ⟨200, favListBody s' current_user_id⟩)

/-- One API request, as dispatched by the router (favorites requests
carry the identity the Auth Guard extracted). -/
inductive Request where
  | signupReq (email password : Option String) : Request
  | loginReq (email password : Option String) : Request
  | getPeople : Request
  | getPerson (id : Nat) : Request
  | getPlanets : Request
  | getPlanet (id : Nat) : Request
  | getUsers : Request
  | getFavorites (uid : Nat) : Request
  | addFavPlanet (uid id : Nat) : Request
  | addFavPerson (uid id : Nat) : Request
  | delFavPlanet (uid id : Nat) : Request
  | delFavPerson (uid id : Nat) : Request
deriving Repr

/-- The store after one handler runs (the response discarded). -/
def step (s : Store) : Request → Store
  | Request.signupReq e pw => (signup s e pw).1
  | Request.loginReq e pw => (login "" s e pw).1
  | Request.getPeople => (get_people s).1
  | Request.getPerson i => (get_person s i).1
  | Request.getPlanets => (get_planets s).1
  | Request.getPlanet i => (get_planet s i).1
  | Request.getUsers => (get_users s).1
  | Request.getFavorites u => (get_favorites s u).1
  | Request.addFavPlanet u i => (add_favorite_planet s u i).1
  | Request.addFavPerson u i => (add_favorite_person s u i).1
  | Request.delFavPlanet u i => (remove_favorite_planet s u i).1
  | Request.delFavPerson u i => (remove_favorite_person s u i).1

/-- Sequential execution of a list of API requests. -/
def execAll (s : Store) (reqs : List Request) : Store :=
  reqs.foldl step s

/-! Sample rows and stores for concrete evaluations. -/

/-- A sample planet row. -/
def tatooine : Planet := ⟨1, "Tatooine", "arid", "desert"⟩

/-- A sample people row. -/
def luke : People := ⟨1, "Luke Skywalker", "19BBY", "male"⟩

/-- A sample user row. -/
def demoUser : User := ⟨1, "a@b.com", "x", true⟩

/-- A sample store: one user, one person, one planet, no favorites. -/
def store1 : Store := ⟨[demoUser], [luke], [tatooine], [], 2, 1⟩

/-- The sample store after user 1 favorited planet 1. -/
def storeFav : Store := ⟨[demoUser], [luke], [tatooine], [⟨1, 1, none, some 1⟩], 2, 2⟩

/-- The favorites-uniqueness invariant of §3 of the spec: at most one
Favorite row per (user, planet) pair and per (user, person) pair. -/
def FavUniq (s : Store) : Prop :=
  ∀ u i : Nat,
    s.favorites.countP (fun f => f.user_id == u && f.planet_id == some i) ≤ 1 ∧
    s.favorites.countP (fun f => f.user_id == u && f.people_id == some i) ≤ 1

/-- The favorites-shape invariant: every Favorite row links exactly one
of a person or a planet. -/
def FavShape (s : Store) : Prop :=
  ∀ f ∈ s.favorites,
    (f.people_id = none ∧ f.planet_id ≠ none) ∨
    (f.people_id ≠ none ∧ f.planet_id = none)

/-- A user with the password field blanked out. -/
def scrubPassword (u : User) : User := { u with password := "" }

/-- Two stores that agree everywhere except possibly on users' password
values. -/
def SameButPasswords (s1 s2 : Store) : Prop :=
  s1.users.map scrubPassword = s2.users.map scrubPassword ∧
  s1.people = s2.people ∧ s1.planets = s2.planets ∧
  s1.favorites = s2.favorites ∧
  s1.nextUserId = s2.nextUserId ∧ s1.nextFavId = s2.nextFavId

/-- The sample store with the sample user's password changed. -/
def store1b : Store := ⟨[⟨1, "a@b.com", "y", true⟩], [luke], [tatooine], [], 2, 1⟩

/-! Theorems about the handlers. -/

/-- A list with an element satisfying `p` has a successful `find?`. -/
theorem exists_mem_find?_eq_some {α : Type} (p : α → Bool) (l : List α)
    (h : ∃ a ∈ l, p a = true) : ∃ b, l.find? p = some b := by
  cases hf : l.find? p with
  | none =>
    obtain ⟨a, ha, hpa⟩ := h
    exact absurd hpa (List.find?_eq_none.mp hf a ha)
  | some b => exact ⟨b, rfl⟩

/-- C8: for every planet id present in the store, GET /api/planets/{id}
returns 200 with a serialized body whose id field equals the path
parameter; for every id not present it returns 404; the store is
unchanged in either case.  The analogous statement holds for GET
/api/people/{id}. -/
theorem get_by_id_spec (s : Store) (pid qid : Nat) :
    ((∃ pl ∈ s.planets, pl.id = pid) →
      (get_planet s pid).2.status = 200 ∧
      (get_planet s pid).2.body.field "id" = some (Json.num pid)) ∧
    ((∀ pl ∈ s.planets, pl.id ≠ pid) →
      get_planet s pid = (s, ⟨404, Json.obj [("error", Json.str "Planet not found")]⟩)) ∧
    (get_planet s pid).1 = s ∧
    ((∃ pe ∈ s.people, pe.id = qid) →
      (get_person s qid).2.status = 200 ∧
      (get_person s qid).2.body.field "id" = some (Json.num qid)) ∧
    ((∀ pe ∈ s.people, pe.id ≠ qid) →
      get_person s qid = (s, ⟨404, Json.obj [("error", Json.str "Person not found")]⟩)) ∧
    (get_person s qid).1 = s := by
  refine ⟨?_, ?_, ?_, ?_, ?_, ?_⟩
  · rintro ⟨pl, hmem, hid⟩
    cases hfind : s.planets.find? (fun p => p.id == pid) with
    | none =>
      exact absurd (List.find?_eq_none.mp hfind pl hmem) (by simp [hid])
    | some q =>
      have hq : q.id = pid := by simpa using List.find?_some hfind
      simp [get_planet, hfind, Planet.serialize, Json.field, hq]
  · intro hnone
    have hfind : s.planets.find? (fun p => p.id == pid) = none :=
      List.find?_eq_none.mpr (fun pl hmem => by simp [hnone pl hmem])
    simp [get_planet, hfind]
  · cases hfind : s.planets.find? (fun p => p.id == pid) <;>
      simp [get_planet, hfind]
  · rintro ⟨pe, hmem, hid⟩
    cases hfind : s.people.find? (fun p => p.id == qid) with
    | none =>
      exact absurd (List.find?_eq_none.mp hfind pe hmem) (by simp [hid])
    | some q =>
      have hq : q.id = qid := by simpa using List.find?_some hfind
      simp [get_person, hfind, People.serialize, Json.field, hq]
  · intro hnone
    have hfind : s.people.find? (fun p => p.id == qid) = none :=
      List.find?_eq_none.mpr (fun pe hmem => by simp [hnone pe hmem])
    simp [get_person, hfind]
  · cases hfind : s.people.find? (fun p => p.id == qid) <;>
      simp [get_person, hfind]

/-- Witness for C8 at a concrete store holding planet 1 and person 1. -/
theorem get_by_id_spec_witness :
    (get_planet store1 1).2.status = 200 ∧ (get_person store1 1).2.status = 200 := by
  have h := get_by_id_spec store1 1 1
  exact ⟨(h.1 ⟨tatooine, by simp [store1], rfl⟩).1,
    (h.2.2.2.1 ⟨luke, by simp [store1], rfl⟩).1⟩

/-- C5: signup returns 400 and inserts nothing when email or password is
missing (absent, or empty: the source's Python falsiness test treats the
empty string as missing) or when a User with the given email already
exists; otherwise it appends exactly one User row with the given email
and password and active flag true and returns 201. -/
theorem signup_spec (s : Store) (email password : Option String) :
    ((email = none ∨ password = none) →
      signup s email password =
        (s, ⟨400, Json.obj [("error", Json.str "Missing email or password")]⟩)) ∧
    (∀ e pw, email = some e → password = some pw →
      ((e.isEmpty || pw.isEmpty) = true →
        signup s email password =
          (s, ⟨400, Json.obj [("error", Json.str "Missing email or password")]⟩)) ∧
      ((e.isEmpty || pw.isEmpty) = false →
        ((∃ u ∈ s.users, u.email = e) →
          signup s email password =
            (s, ⟨400, Json.obj [("error", Json.str "Email already exists")]⟩)) ∧
        ((∀ u ∈ s.users, u.email ≠ e) →
          (signup s email password).1.users =
            s.users ++ [⟨s.nextUserId, e, pw, true⟩] ∧
          (signup s email password).2 =
            ⟨201, Json.obj [("msg", Json.str "User created")]⟩))) := by
  constructor
  · rintro (he | hp)
    · cases password <;> simp [signup, he]
    · cases email <;> simp [signup, hp]
  · intro e pw he hpw
    subst he; subst hpw
    constructor
    · intro hempty
      simp only [signup, if_pos hempty]
    · intro hempty
      constructor
      · rintro ⟨u, hu, hemail⟩
        obtain ⟨b, hfind⟩ := exists_mem_find?_eq_some (fun u => u.email == e) s.users
          ⟨u, hu, by simp [hemail]⟩
        simp [signup, hempty, hfind]
      · intro hnone
        have hfind : s.users.find? (fun u => u.email == e) = none :=
          List.find?_eq_none.mpr (fun u hu => by simp [hnone u hu])
        simp [signup, hempty, hfind]

/-- Witness for C5: signing up a fresh email on the sample store appends
that user and returns 201. -/
theorem signup_spec_witness :
    (signup store1 (some "new@b.com") (some "pw")).1.users =
      store1.users ++ [⟨store1.nextUserId, "new@b.com", "pw", true⟩] ∧
    (signup store1 (some "new@b.com") (some "pw")).2 =
      ⟨201, Json.obj [("msg", Json.str "User created")]⟩ := by
  have h := ((signup_spec store1 (some "new@b.com") (some "pw")).2
    "new@b.com" "pw" rfl rfl).2 (by decide)
  exact h.2 (by decide)

/-- C1: adding a favorite planet returns 404 when the planet does not
exist; 400 without inserting when the user already has that favorite;
otherwise it appends exactly one Favorite row (user, planet) and returns
200 with the updated list of the user's favorites, which contains the
new pair.  The same holds for favorite people. -/
theorem add_favorite_spec (s : Store) (u p q : Nat) :
    ((∀ pl ∈ s.planets, pl.id ≠ p) →
      add_favorite_planet s u p =
        (s, ⟨404, Json.obj [("error", Json.str "Planet not found")]⟩)) ∧
    ((∃ pl ∈ s.planets, pl.id = p) →
      ((∃ f ∈ s.favorites, f.user_id = u ∧ f.planet_id = some p) →
        add_favorite_planet s u p =
          (s, ⟨400, Json.obj [("msg", Json.str "Planet already in favorites")]⟩)) ∧
      ((∀ f ∈ s.favorites, ¬(f.user_id = u ∧ f.planet_id = some p)) →
        (add_favorite_planet s u p).1.favorites =
          s.favorites ++ [⟨s.nextFavId, u, none, some p⟩] ∧
        (add_favorite_planet s u p).2.status = 200 ∧
        (add_favorite_planet s u p).2.body =
          favListBody (add_favorite_planet s u p).1 u ∧
        Favorite.mk s.nextFavId u none (some p) ∈
          favoritesOf (add_favorite_planet s u p).1 u)) ∧
    ((∀ pe ∈ s.people, pe.id ≠ q) →
      add_favorite_person s u q =
        (s, ⟨404, Json.obj [("error", Json.str "Person not found")]⟩)) ∧
    ((∃ pe ∈ s.people, pe.id = q) →
      ((∃ f ∈ s.favorites, f.user_id = u ∧ f.people_id = some q) →
        add_favorite_person s u q =
          (s, ⟨400, Json.obj [("msg", Json.str "Person already in favorites")]⟩)) ∧
      ((∀ f ∈ s.favorites, ¬(f.user_id = u ∧ f.people_id = some q)) →
        (add_favorite_person s u q).1.favorites =
          s.favorites ++ [⟨s.nextFavId, u, some q, none⟩] ∧
        (add_favorite_person s u q).2.status = 200 ∧
        (add_favorite_person s u q).2.body =
          favListBody (add_favorite_person s u q).1 u ∧
        Favorite.mk s.nextFavId u (some q) none ∈
          favoritesOf (add_favorite_person s u q).1 u)) := by
  refine ⟨?_, ?_, ?_, ?_⟩
  · intro hnone
    have hfind : s.planets.find? (fun pl => pl.id == p) = none :=
      List.find?_eq_none.mpr (fun pl hpl => by simp [hnone pl hpl])
    simp [add_favorite_planet, hfind]
  · rintro ⟨pl, hpl, hid⟩
    obtain ⟨b, hfind⟩ := exists_mem_find?_eq_some (fun pl => pl.id == p) s.planets
      ⟨pl, hpl, by simp [hid]⟩
    constructor
    · rintro ⟨f, hf, hfu, hfp⟩
      obtain ⟨c, hfav⟩ := exists_mem_find?_eq_some
        (fun f => f.user_id == u && f.planet_id == some p) s.favorites
        ⟨f, hf, by simp [hfu, hfp]⟩
      simp [add_favorite_planet, hfind, hfav]
    · intro hnofav
      have hfav : s.favorites.find? (fun f => f.user_id == u && f.planet_id == some p) = none :=
        List.find?_eq_none.mpr (fun f hf => by
          have := hnofav f hf
          simp only [Bool.and_eq_true, beq_iff_eq, not_and] at this ⊢
          intro h1
          exact fun h2 => this h1 h2)
      refine ⟨by simp [add_favorite_planet, hfind, hfav], ?_, ?_, ?_⟩
      · simp [add_favorite_planet, hfind, hfav]
      · simp [add_favorite_planet, hfind, hfav]
      · simp only [add_favorite_planet, hfind, hfav]
        simp [favoritesOf, List.mem_filter]
  · intro hnone
    have hfind : s.people.find? (fun pe => pe.id == q) = none :=
      List.find?_eq_none.mpr (fun pe hpe => by simp [hnone pe hpe])
    simp [add_favorite_person, hfind]
  · rintro ⟨pe, hpe, hid⟩
    obtain ⟨b, hfind⟩ := exists_mem_find?_eq_some (fun pe => pe.id == q) s.people
      ⟨pe, hpe, by simp [hid]⟩
    constructor
    · rintro ⟨f, hf, hfu, hfq⟩
      obtain ⟨c, hfav⟩ := exists_mem_find?_eq_some
        (fun f => f.user_id == u && f.people_id == some q) s.favorites
        ⟨f, hf, by simp [hfu, hfq]⟩
      simp [add_favorite_person, hfind, hfav]
    · intro hnofav
      have hfav : s.favorites.find? (fun f => f.user_id == u && f.people_id == some q) = none :=
        List.find?_eq_none.mpr (fun f hf => by
          have := hnofav f hf
          simp only [Bool.and_eq_true, beq_iff_eq, not_and] at this ⊢
          intro h1
          exact fun h2 => this h1 h2)
      refine ⟨by simp [add_favorite_person, hfind, hfav], ?_, ?_, ?_⟩
      · simp [add_favorite_person, hfind, hfav]
      · simp [add_favorite_person, hfind, hfav]
      · simp only [add_favorite_person, hfind, hfav]
        simp [favoritesOf, List.mem_filter]

/-- Witness for C1: on the sample store, adding planet 1 for user 1
appends the favorite row and lists it. -/
theorem add_favorite_spec_witness :
    (add_favorite_planet store1 1 1).1.favorites =
      store1.favorites ++ [⟨store1.nextFavId, 1, none, some 1⟩] ∧
    (add_favorite_planet store1 1 1).2.status = 200 := by
  have h := ((add_favorite_spec store1 1 1 1).2.1
    ⟨tatooine, by simp [store1], rfl⟩).2 (by intro f hf; simp [store1] at hf)
  exact ⟨h.1, h.2.1⟩

/-- C6: login returns 401 exactly when no User row matches the given
(email, password) pair; when a match exists it returns 200 with a token
issued for the matched user's id; the store is unchanged in every
case. -/
theorem login_spec (secret : String) (s : Store) (email password : Option String) :
    (login secret s email password).1 = s ∧
    ((login secret s email password).2.status = 401 ↔
      ∀ u ∈ s.users, ¬(email = some u.email ∧ password = some u.password)) ∧
    ((∃ u ∈ s.users, email = some u.email ∧ password = some u.password) →
      ∃ u ∈ s.users, email = some u.email ∧ password = some u.password ∧
        (login secret s email password).2.status = 200 ∧
        (login secret s email password).2.token =
          some (create_access_token secret u.id)) := by
  cases hfind : s.users.find? (fun u => email == some u.email && password == some u.password) with
  | none =>
    have hall : ∀ u ∈ s.users, ¬(email = some u.email ∧ password = some u.password) := by
      intro u hu
      have := List.find?_eq_none.mp hfind u hu
      simpa using this
    refine ⟨by simp [login, hfind],
      Iff.intro (fun _ => hall) (fun _ => by simp [login, hfind]), ?_⟩
    rintro ⟨u, hu, he, hp⟩
    exact absurd ⟨he, hp⟩ (hall u hu)
  | some u =>
    have hu : email = some u.email ∧ password = some u.password := by
      simpa using List.find?_some hfind
    have hmem : u ∈ s.users := List.mem_of_find?_eq_some hfind
    refine ⟨by simp [login, hfind], ?_, ?_⟩
    · constructor
      · intro h
        exact absurd h (by simp [login, hfind])
      · intro hall
        exact absurd ⟨hu.1, hu.2⟩ (hall u hmem)
    · intro _
      exact ⟨u, hmem, hu.1, hu.2, by simp [login, hfind], by simp [login, hfind]⟩

/-- When the planet exists and the user already has it as a favorite,
the add handler answers 400 and leaves the store untouched. -/
theorem add_favorite_planet_dup (s : Store) (u p : Nat)
    (hpl : ∃ pl ∈ s.planets, pl.id = p)
    (hf : ∃ f ∈ s.favorites, f.user_id = u ∧ f.planet_id = some p) :
    add_favorite_planet s u p =
      (s, ⟨400, Json.obj [("msg", Json.str "Planet already in favorites")]⟩) := by
  obtain ⟨pl, hmem, hid⟩ := hpl
  obtain ⟨b, hfind⟩ := exists_mem_find?_eq_some (fun pl => pl.id == p) s.planets
    ⟨pl, hmem, by simp [hid]⟩
  obtain ⟨f, hfmem, hfu, hfp⟩ := hf
  obtain ⟨c, hfav⟩ := exists_mem_find?_eq_some
    (fun f => f.user_id == u && f.planet_id == some p) s.favorites
    ⟨f, hfmem, by simp [hfu, hfp]⟩
  simp [add_favorite_planet, hfind, hfav]

/-- Person analogue of `add_favorite_planet_dup`. -/
theorem add_favorite_person_dup (s : Store) (u q : Nat)
    (hpe : ∃ pe ∈ s.people, pe.id = q)
    (hf : ∃ f ∈ s.favorites, f.user_id = u ∧ f.people_id = some q) :
    add_favorite_person s u q =
      (s, ⟨400, Json.obj [("msg", Json.str "Person already in favorites")]⟩) := by
  obtain ⟨pe, hmem, hid⟩ := hpe
  obtain ⟨b, hfind⟩ := exists_mem_find?_eq_some (fun pe => pe.id == q) s.people
    ⟨pe, hmem, by simp [hid]⟩
  obtain ⟨f, hfmem, hfu, hfq⟩ := hf
  obtain ⟨c, hfav⟩ := exists_mem_find?_eq_some
    (fun f => f.user_id == u && f.people_id == some q) s.favorites
    ⟨f, hfmem, by simp [hfu, hfq]⟩
  simp [add_favorite_person, hfind, hfav]

/-- C3: for an existing target, a second add-favorite call for the same
(user, target) returns 400 and leaves the store — in particular the
user's favorites list — exactly as it was after the first call. -/
theorem add_favorite_twice_spec (s : Store) (u p q : Nat) :
    ((∃ pl ∈ s.planets, pl.id = p) →
      add_favorite_planet (add_favorite_planet s u p).1 u p =
        ((add_favorite_planet s u p).1,
         ⟨400, Json.obj [("msg", Json.str "Planet already in favorites")]⟩)) ∧
    ((∃ pe ∈ s.people, pe.id = q) →
      add_favorite_person (add_favorite_person s u q).1 u q =
        ((add_favorite_person s u q).1,
         ⟨400, Json.obj [("msg", Json.str "Person already in favorites")]⟩)) := by
  constructor
  · rintro ⟨pl, hmem, hid⟩
    obtain ⟨b, hfind⟩ := exists_mem_find?_eq_some (fun pl => pl.id == p) s.planets
      ⟨pl, hmem, by simp [hid]⟩
    cases hfav : s.favorites.find? (fun f => f.user_id == u && f.planet_id == some p) with
    | some f =>
      have hPf : f.user_id = u ∧ f.planet_id = some p := by
        simpa using List.find?_some hfav
      have hs1 : (add_favorite_planet s u p).1 = s := by
        simp [add_favorite_planet, hfind, hfav]
      rw [hs1]
      exact add_favorite_planet_dup s u p ⟨pl, hmem, hid⟩
        ⟨f, List.mem_of_find?_eq_some hfav, hPf.1, hPf.2⟩
    | none =>
      have h1 : (add_favorite_planet s u p).1.planets = s.planets := by
        simp [add_favorite_planet, hfind, hfav]
      have h2 : (add_favorite_planet s u p).1.favorites =
          s.favorites ++ [⟨s.nextFavId, u, none, some p⟩] := by
        simp [add_favorite_planet, hfind, hfav]
      exact add_favorite_planet_dup (add_favorite_planet s u p).1 u p
        ⟨pl, by rw [h1]; exact hmem, hid⟩
        ⟨⟨s.nextFavId, u, none, some p⟩, by rw [h2]; simp, rfl, rfl⟩
  · rintro ⟨pe, hmem, hid⟩
    obtain ⟨b, hfind⟩ := exists_mem_find?_eq_some (fun pe => pe.id == q) s.people
      ⟨pe, hmem, by simp [hid]⟩
    cases hfav : s.favorites.find? (fun f => f.user_id == u && f.people_id == some q) with
    | some f =>
      have hPf : f.user_id = u ∧ f.people_id = some q := by
        simpa using List.find?_some hfav
      have hs1 : (add_favorite_person s u q).1 = s := by
        simp [add_favorite_person, hfind, hfav]
      rw [hs1]
      exact add_favorite_person_dup s u q ⟨pe, hmem, hid⟩
        ⟨f, List.mem_of_find?_eq_some hfav, hPf.1, hPf.2⟩
    | none =>
      have h1 : (add_favorite_person s u q).1.people = s.people := by
        simp [add_favorite_person, hfind, hfav]
      have h2 : (add_favorite_person s u q).1.favorites =
          s.favorites ++ [⟨s.nextFavId, u, some q, none⟩] := by
        simp [add_favorite_person, hfind, hfav]
      exact add_favorite_person_dup (add_favorite_person s u q).1 u q
        ⟨pe, by rw [h1]; exact hmem, hid⟩
        ⟨⟨s.nextFavId, u, some q, none⟩, by rw [h2]; simp, rfl, rfl⟩

/-- Witness for C3: adding planet 1 twice on the sample store yields 400
the second time with the store unchanged. -/
theorem add_favorite_twice_spec_witness :
    add_favorite_planet (add_favorite_planet store1 1 1).1 1 1 =
      ((add_favorite_planet store1 1 1).1,
       ⟨400, Json.obj [("msg", Json.str "Planet already in favorites")]⟩) :=
  (add_favorite_twice_spec store1 1 1 1).1 ⟨tatooine, by simp [store1], rfl⟩

/-- Erasing the sole element satisfying `p` leaves no element satisfying
`p`. -/
theorem countP_erase_eq_zero {α : Type} [DecidableEq α] (p : α → Bool) (l : List α)
    (a : α) (ha : a ∈ l) (hpa : p a = true) (hle : l.countP p ≤ 1) :
    (l.erase a).countP p = 0 := by
  have hperm := (List.perm_cons_erase ha).countP_eq p
  rw [List.countP_cons, hpa] at hperm
  simp only [if_pos] at hperm
  omega

/-- A singleton list has at most one element satisfying any predicate. -/
theorem countP_le_one_singleton {α : Type} (p : α → Bool) (a : α) :
    [a].countP p ≤ 1 := by
  by_cases h : p a = true <;> simp [List.countP_cons, h]

/-- C4: in a store satisfying the favorites-uniqueness invariant,
removing a favorite the user does not have returns 404 with the store
unchanged; removing one the user has deletes exactly that row and
returns 200 with the updated list of the user's favorites, which no
longer contains the target.  Both for planets and for people. -/
theorem remove_favorite_spec (s : Store) (u t r : Nat) (hU : FavUniq s) :
    ((∀ f ∈ s.favorites, ¬(f.user_id = u ∧ f.planet_id = some t)) →
      remove_favorite_planet s u t =
        (s, ⟨404, Json.obj [("error", Json.str "Favorite planet not found")]⟩)) ∧
    ((∃ f ∈ s.favorites, f.user_id = u ∧ f.planet_id = some t) →
      ∃ f ∈ s.favorites, f.user_id = u ∧ f.planet_id = some t ∧
        (remove_favorite_planet s u t).1.favorites = s.favorites.erase f ∧
        (remove_favorite_planet s u t).2.status = 200 ∧
        (remove_favorite_planet s u t).2.body =
          favListBody (remove_favorite_planet s u t).1 u ∧
        ∀ g ∈ favoritesOf (remove_favorite_planet s u t).1 u,
          g.planet_id ≠ some t) ∧
    ((∀ f ∈ s.favorites, ¬(f.user_id = u ∧ f.people_id = some r)) →
      remove_favorite_person s u r =
        (s, ⟨404, Json.obj [("error", Json.str "Favorite person not found")]⟩)) ∧
    ((∃ f ∈ s.favorites, f.user_id = u ∧ f.people_id = some r) →
      ∃ f ∈ s.favorites, f.user_id = u ∧ f.people_id = some r ∧
        (remove_favorite_person s u r).1.favorites = s.favorites.erase f ∧
        (remove_favorite_person s u r).2.status = 200 ∧
        (remove_favorite_person s u r).2.body =
          favListBody (remove_favorite_person s u r).1 u ∧
        ∀ g ∈ favoritesOf (remove_favorite_person s u r).1 u,
          g.people_id ≠ some r) := by
  refine ⟨?_, ?_, ?_, ?_⟩
  · intro hnone
    have hfav : s.favorites.find? (fun f => f.user_id == u && f.planet_id == some t) = none :=
      List.find?_eq_none.mpr (fun f hf => by
        have := hnone f hf
        simp only [Bool.and_eq_true, beq_iff_eq, not_and] at this ⊢
        exact fun h1 h2 => this h1 h2)
    simp [remove_favorite_planet, hfav]
  · rintro ⟨f0, hf0, hfu, hfp⟩
    obtain ⟨f, hfav⟩ := exists_mem_find?_eq_some
      (fun f => f.user_id == u && f.planet_id == some t) s.favorites
      ⟨f0, hf0, by simp [hfu, hfp]⟩
    have hPf : f.user_id = u ∧ f.planet_id = some t := by
      simpa using List.find?_some hfav
    have hmem := List.mem_of_find?_eq_some hfav
    refine ⟨f, hmem, hPf.1, hPf.2, by simp [remove_favorite_planet, hfav],
      by simp [remove_favorite_planet, hfav],
      by simp [remove_favorite_planet, hfav], ?_⟩
    intro g hg hgp
    have h0 : (s.favorites.erase f).countP
        (fun f => f.user_id == u && f.planet_id == some t) = 0 :=
      countP_erase_eq_zero _ _ _ hmem (by simp [hPf.1, hPf.2]) (hU u t).1
    have hg' : g ∈ s.favorites.erase f ∧ (g.user_id == u) = true := by
      have hg2 := hg
      simp only [remove_favorite_planet, hfav, favoritesOf, List.mem_filter] at hg2
      exact hg2
    have hng := List.countP_eq_zero.mp h0 g hg'.1
    simp only [Bool.and_eq_true, beq_iff_eq, not_and] at hng
    exact hng (by simpa using hg'.2) (by simp [hgp])
  · intro hnone
    have hfav : s.favorites.find? (fun f => f.user_id == u && f.people_id == some r) = none :=
      List.find?_eq_none.mpr (fun f hf => by
        have := hnone f hf
        simp only [Bool.and_eq_true, beq_iff_eq, not_and] at this ⊢
        exact fun h1 h2 => this h1 h2)
    simp [remove_favorite_person, hfav]
  · rintro ⟨f0, hf0, hfu, hfq⟩
    obtain ⟨f, hfav⟩ := exists_mem_find?_eq_some
      (fun f => f.user_id == u && f.people_id == some r) s.favorites
      ⟨f0, hf0, by simp [hfu, hfq]⟩
    have hPf : f.user_id = u ∧ f.people_id = some r := by
      simpa using List.find?_some hfav
    have hmem := List.mem_of_find?_eq_some hfav
    refine ⟨f, hmem, hPf.1, hPf.2, by simp [remove_favorite_person, hfav],
      by simp [remove_favorite_person, hfav],
      by simp [remove_favorite_person, hfav], ?_⟩
    intro g hg hgq
    have h0 : (s.favorites.erase f).countP
        (fun f => f.user_id == u && f.people_id == some r) = 0 :=
      countP_erase_eq_zero _ _ _ hmem (by simp [hPf.1, hPf.2]) (hU u r).2
    have hg' : g ∈ s.favorites.erase f ∧ (g.user_id == u) = true := by
      have hg2 := hg
      simp only [remove_favorite_person, hfav, favoritesOf, List.mem_filter] at hg2
      exact hg2
    have hng := List.countP_eq_zero.mp h0 g hg'.1
    simp only [Bool.and_eq_true, beq_iff_eq, not_and] at hng
    exact hng (by simpa using hg'.2) (by simp [hgq])

/-- Witness for C4: on the store where user 1 has favorited planet 1,
the delete handler answers 200 and removes the row. -/
theorem remove_favorite_spec_witness :
    (remove_favorite_planet storeFav 1 1).2.status = 200 := by
  have hU : FavUniq storeFav := fun u i =>
    ⟨countP_le_one_singleton _ _, countP_le_one_singleton _ _⟩
  obtain ⟨f, _, _, _, _, hst, _⟩ := (remove_favorite_spec storeFav 1 1 1 hU).2.1
    ⟨⟨1, 1, none, some 1⟩, by simp [storeFav], rfl, rfl⟩
  exact hst

/-- Appending one element keeps per-predicate counts at most one,
provided the element only satisfies predicates with no prior
occurrence. -/
theorem countP_append_le_one {α : Type} (l : List α) (a : α) (p : α → Bool)
    (hl : l.countP p ≤ 1) (ha : p a = true → l.countP p = 0) :
    (l ++ [a]).countP p ≤ 1 := by
  rw [List.countP_append]
  by_cases h : p a = true
  · rw [ha h]
    simp [List.countP_cons, h]
  · simp [List.countP_cons, h]
    omega

/-- `signup` never touches the favorite table. -/
theorem signup_favorites (s : Store) (e pw : Option String) :
    (signup s e pw).1.favorites = s.favorites := by
  cases e with
  | none => cases pw <;> rfl
  | some a =>
    cases pw with
    | none => rfl
    | some b =>
      simp only [signup]
      by_cases h : (a.isEmpty || b.isEmpty) = true
      · simp [h]
      · simp only [h]
        cases hf : s.users.find? (fun u => u.email == a) <;> simp [hf]

/-- `login` never changes the store. -/
theorem login_store_eq (secret : String) (s : Store) (e pw : Option String) :
    (login secret s e pw).1 = s := by
  cases hf : s.users.find? (fun u => e == some u.email && pw == some u.password) <;>
    simp [login, hf]

/-- `get_person` never changes the store. -/
theorem get_person_store_eq (s : Store) (i : Nat) : (get_person s i).1 = s := by
  cases hf : s.people.find? (fun p => p.id == i) <;> simp [get_person, hf]

/-- `get_planet` never changes the store. -/
theorem get_planet_store_eq (s : Store) (i : Nat) : (get_planet s i).1 = s := by
  cases hf : s.planets.find? (fun p => p.id == i) <;> simp [get_planet, hf]

/-- The favorites-uniqueness invariant only depends on the favorite
table. -/
theorem FavUniq_of_favorites_eq {s s' : Store} (hf : s'.favorites = s.favorites)
    (h : FavUniq s) : FavUniq s' := by
  intro u i
  rw [FavUniq] at h
  constructor
  · rw [hf]; exact (h u i).1
  · rw [hf]; exact (h u i).2

/-- Adding a favorite planet preserves the uniqueness invariant. -/
theorem FavUniq_add_favorite_planet (s : Store) (u p : Nat) (h : FavUniq s) :
    FavUniq (add_favorite_planet s u p).1 := by
  cases hfind : s.planets.find? (fun pl => pl.id == p) with
  | none => exact FavUniq_of_favorites_eq (by simp [add_favorite_planet, hfind]) h
  | some pl =>
    cases hfav : s.favorites.find? (fun f => f.user_id == u && f.planet_id == some p) with
    | some f => exact FavUniq_of_favorites_eq (by simp [add_favorite_planet, hfind, hfav]) h
    | none =>
      have hzero : s.favorites.countP (fun f => f.user_id == u && f.planet_id == some p) = 0 :=
        List.countP_eq_zero.mpr (List.find?_eq_none.mp hfav)
      have h1 : (add_favorite_planet s u p).1.favorites =
          s.favorites ++ [⟨s.nextFavId, u, none, some p⟩] := by
        simp [add_favorite_planet, hfind, hfav]
      intro u' i
      constructor
      · rw [h1]
        apply countP_append_le_one _ _ _ (h u' i).1
        intro hpa
        simp only [Bool.and_eq_true, beq_iff_eq] at hpa
        obtain ⟨h2, h3⟩ := hpa
        have h2' : u' = u := h2.symm
        have h3' : i = p := by simpa using h3.symm
        subst h2'; subst h3'
        exact hzero
      · rw [h1]
        apply countP_append_le_one _ _ _ (h u' i).2
        intro hpa
        simp at hpa

/-- Adding a favorite person preserves the uniqueness invariant. -/
theorem FavUniq_add_favorite_person (s : Store) (u q : Nat) (h : FavUniq s) :
    FavUniq (add_favorite_person s u q).1 := by
  cases hfind : s.people.find? (fun pe => pe.id == q) with
  | none => exact FavUniq_of_favorites_eq (by simp [add_favorite_person, hfind]) h
  | some pe =>
    cases hfav : s.favorites.find? (fun f => f.user_id == u && f.people_id == some q) with
    | some f => exact FavUniq_of_favorites_eq (by simp [add_favorite_person, hfind, hfav]) h
    | none =>
      have hzero : s.favorites.countP (fun f => f.user_id == u && f.people_id == some q) = 0 :=
        List.countP_eq_zero.mpr (List.find?_eq_none.mp hfav)
      have h1 : (add_favorite_person s u q).1.favorites =
          s.favorites ++ [⟨s.nextFavId, u, some q, none⟩] := by
        simp [add_favorite_person, hfind, hfav]
      intro u' i
      constructor
      · rw [h1]
        apply countP_append_le_one _ _ _ (h u' i).1
        intro hpa
        simp at hpa
      · rw [h1]
        apply countP_append_le_one _ _ _ (h u' i).2
        intro hpa
        simp only [Bool.and_eq_true, beq_iff_eq] at hpa
        obtain ⟨h2, h3⟩ := hpa
        have h2' : u' = u := h2.symm
        have h3' : i = q := by simpa using h3.symm
        subst h2'; subst h3'
        exact hzero

/-- Removing a favorite planet preserves the uniqueness invariant. -/
theorem FavUniq_remove_favorite_planet (s : Store) (u p : Nat) (h : FavUniq s) :
    FavUniq (remove_favorite_planet s u p).1 := by
  cases hfav : s.favorites.find? (fun f => f.user_id == u && f.planet_id == some p) with
  | none => exact FavUniq_of_favorites_eq (by simp [remove_favorite_planet, hfav]) h
  | some f =>
    have h1 : (remove_favorite_planet s u p).1.favorites = s.favorites.erase f := by
      simp [remove_favorite_planet, hfav]
    intro u' i
    constructor
    · rw [h1]
      exact le_trans ((List.erase_sublist f s.favorites).countP_le _) (h u' i).1
    · rw [h1]
      exact le_trans ((List.erase_sublist f s.favorites).countP_le _) (h u' i).2

/-- Removing a favorite person preserves the uniqueness invariant. -/
theorem FavUniq_remove_favorite_person (s : Store) (u q : Nat) (h : FavUniq s) :
    FavUniq (remove_favorite_person s u q).1 := by
  cases hfav : s.favorites.find? (fun f => f.user_id == u && f.people_id == some q) with
  | none => exact FavUniq_of_favorites_eq (by simp [remove_favorite_person, hfav]) h
  | some f =>
    have h1 : (remove_favorite_person s u q).1.favorites = s.favorites.erase f := by
      simp [remove_favorite_person, hfav]
    intro u' i
    constructor
    · rw [h1]
      exact le_trans ((List.erase_sublist f s.favorites).countP_le _) (h u' i).1
    · rw [h1]
      exact le_trans ((List.erase_sublist f s.favorites).countP_le _) (h u' i).2

/-- Every API handler preserves the uniqueness invariant. -/
theorem FavUniq_step (s : Store) (r : Request) (h : FavUniq s) : FavUniq (step s r) := by
  cases r with
  | signupReq e pw => exact FavUniq_of_favorites_eq (signup_favorites s e pw) h
  | loginReq e pw => exact FavUniq_of_favorites_eq (by simp [step, login_store_eq]) h
  | getPeople => exact h
  | getPerson i => exact FavUniq_of_favorites_eq (by simp [step, get_person_store_eq]) h
  | getPlanets => exact h
  | getPlanet i => exact FavUniq_of_favorites_eq (by simp [step, get_planet_store_eq]) h
  | getUsers => exact h
  | getFavorites u => exact h
  | addFavPlanet u i => exact FavUniq_add_favorite_planet s u i h
  | addFavPerson u i => exact FavUniq_add_favorite_person s u i h
  | delFavPlanet u i => exact FavUniq_remove_favorite_planet s u i h
  | delFavPerson u i => exact FavUniq_remove_favorite_person s u i h

/-- The uniqueness invariant propagates through a request sequence. -/
theorem FavUniq_execAll (s : Store) (reqs : List Request) (h : FavUniq s) :
    FavUniq (execAll s reqs) := by
  induction reqs generalizing s with
  | nil => exact h
  | cons r rs ih => exact ih (step s r) (FavUniq_step s r h)

/-- C2: every handler preserves the at-most-one-favorite-per-pair
invariant, and every state reachable from a store with no favorites
satisfies it. -/
theorem favorites_unique_invariant :
    (∀ (s : Store) (r : Request), FavUniq s → FavUniq (step s r)) ∧
    (∀ (s : Store) (reqs : List Request), s.favorites = [] →
      FavUniq (execAll s reqs)) := by
  refine ⟨FavUniq_step, fun s reqs h0 => FavUniq_execAll s reqs ?_⟩
  intro u i
  constructor <;> simp [h0]

/-- Witness for C2. -/
theorem favorites_unique_invariant_witness :
    FavUniq (execAll store1 [Request.addFavPlanet 1 1, Request.addFavPerson 1 1]) :=
  favorites_unique_invariant.2 store1 _ rfl

/-- The favorites-shape invariant only depends on the favorite table. -/
theorem FavShape_of_favorites_eq {s s' : Store} (hf : s'.favorites = s.favorites)
    (h : FavShape s) : FavShape s' := by
  intro f hf'
  rw [hf] at hf'
  exact h f hf'

/-- Adding a favorite planet preserves the shape invariant. -/
theorem FavShape_add_favorite_planet (s : Store) (u p : Nat) (h : FavShape s) :
    FavShape (add_favorite_planet s u p).1 := by
  cases hfind : s.planets.find? (fun pl => pl.id == p) with
  | none => exact FavShape_of_favorites_eq (by simp [add_favorite_planet, hfind]) h
  | some pl =>
    cases hfav : s.favorites.find? (fun f => f.user_id == u && f.planet_id == some p) with
    | some f => exact FavShape_of_favorites_eq (by simp [add_favorite_planet, hfind, hfav]) h
    | none =>
      have h1 : (add_favorite_planet s u p).1.favorites =
          s.favorites ++ [⟨s.nextFavId, u, none, some p⟩] := by
        simp [add_favorite_planet, hfind, hfav]
      intro f hf
      rw [h1] at hf
      rcases List.mem_append.mp hf with hl | hr
      · exact h f hl
      · rw [List.mem_singleton] at hr
        subst hr
        exact Or.inl ⟨rfl, by simp⟩

/-- Adding a favorite person preserves the shape invariant. -/
theorem FavShape_add_favorite_person (s : Store) (u q : Nat) (h : FavShape s) :
    FavShape (add_favorite_person s u q).1 := by
  cases hfind : s.people.find? (fun pe => pe.id == q) with
  | none => exact FavShape_of_favorites_eq (by simp [add_favorite_person, hfind]) h
  | some pe =>
    cases hfav : s.favorites.find? (fun f => f.user_id == u && f.people_id == some q) with
    | some f => exact FavShape_of_favorites_eq (by simp [add_favorite_person, hfind, hfav]) h
    | none =>
      have h1 : (add_favorite_person s u q).1.favorites =
          s.favorites ++ [⟨s.nextFavId, u, some q, none⟩] := by
        simp [add_favorite_person, hfind, hfav]
      intro f hf
      rw [h1] at hf
      rcases List.mem_append.mp hf with hl | hr
      · exact h f hl
      · rw [List.mem_singleton] at hr
        subst hr
        exact Or.inr ⟨by simp, rfl⟩

/-- Removing a favorite planet preserves the shape invariant. -/
theorem FavShape_remove_favorite_planet (s : Store) (u p : Nat) (h : FavShape s) :
    FavShape (remove_favorite_planet s u p).1 := by
  cases hfav : s.favorites.find? (fun f => f.user_id == u && f.planet_id == some p) with
  | none => exact FavShape_of_favorites_eq (by simp [remove_favorite_planet, hfav]) h
  | some f =>
    have h1 : (remove_favorite_planet s u p).1.favorites = s.favorites.erase f := by
      simp [remove_favorite_planet, hfav]
    intro g hg
    rw [h1] at hg
    exact h g (List.mem_of_mem_erase hg)

/-- Removing a favorite person preserves the shape invariant. -/
theorem FavShape_remove_favorite_person (s : Store) (u q : Nat) (h : FavShape s) :
    FavShape (remove_favorite_person s u q).1 := by
  cases hfav : s.favorites.find? (fun f => f.user_id == u && f.people_id == some q) with
  | none => exact FavShape_of_favorites_eq (by simp [remove_favorite_person, hfav]) h
  | some f =>
    have h1 : (remove_favorite_person s u q).1.favorites = s.favorites.erase f := by
      simp [remove_favorite_person, hfav]
    intro g hg
    rw [h1] at hg
    exact h g (List.mem_of_mem_erase hg)

/-- Every API handler preserves the shape invariant. -/
theorem FavShape_step (s : Store) (r : Request) (h : FavShape s) : FavShape (step s r) := by
  cases r with
  | signupReq e pw => exact FavShape_of_favorites_eq (signup_favorites s e pw) h
  | loginReq e pw => exact FavShape_of_favorites_eq (by simp [step, login_store_eq]) h
  | getPeople => exact h
  | getPerson i => exact FavShape_of_favorites_eq (by simp [step, get_person_store_eq]) h
  | getPlanets => exact h
  | getPlanet i => exact FavShape_of_favorites_eq (by simp [step, get_planet_store_eq]) h
  | getUsers => exact h
  | getFavorites u => exact h
  | addFavPlanet u i => exact FavShape_add_favorite_planet s u i h
  | addFavPerson u i => exact FavShape_add_favorite_person s u i h
  | delFavPlanet u i => exact FavShape_remove_favorite_planet s u i h
  | delFavPerson u i => exact FavShape_remove_favorite_person s u i h

/-- The shape invariant propagates through a request sequence. -/
theorem FavShape_execAll (s : Store) (reqs : List Request) (h : FavShape s) :
    FavShape (execAll s reqs) := by
  induction reqs generalizing s with
  | nil => exact h
  | cons r rs ih => exact ih (step s r) (FavShape_step s r h)

/-- C9: the add handlers create rows linking exactly one of a person or
a planet, no handler rewrites an existing row, so every handler
preserves the shape invariant and every state reachable from a store
with no favorites satisfies it. -/
theorem favorite_shape_invariant :
    (∀ (s : Store) (r : Request), FavShape s → FavShape (step s r)) ∧
    (∀ (s : Store) (reqs : List Request), s.favorites = [] →
      FavShape (execAll s reqs)) := by
  refine ⟨FavShape_step, fun s reqs h0 => FavShape_execAll s reqs ?_⟩
  intro f hf
  rw [h0] at hf
  exact absurd hf (List.not_mem_nil f)

/-- Witness for C9. -/
theorem favorite_shape_invariant_witness :
    FavShape (execAll store1 [Request.addFavPlanet 1 1, Request.addFavPerson 1 1]) :=
  favorite_shape_invariant.2 store1 _ rfl

/-- C7: a token issued by a successful login is accepted by the Auth
Guard with the logged-in user's id as its identity, and the protected
favorites route answers 200 for it; a missing, malformed, expired or
wrongly signed token is rejected, and the protected route answers 401
for every rejected token. -/
theorem auth_roundtrip_spec (secret : String) (s : Store) (e p : Option String) :
    (∀ t, (login secret s e p).2.token = some t →
      ∃ u ∈ s.users, e = some u.email ∧ p = some u.password ∧
        verify_token secret t = some u.id ∧
        get_favorites_guarded secret s t = (s, ⟨200, favListBody s u.id⟩)) ∧
    verify_token secret BearerToken.missing = none ∧
    (∀ raw, verify_token secret (BearerToken.malformed raw) = none) ∧
    (∀ i sig, verify_token secret (BearerToken.signed i sig true) = none) ∧
    (∀ i sig, sig ≠ secret →
      verify_token secret (BearerToken.signed i sig false) = none) ∧
    (∀ t, verify_token secret t = none →
      get_favorites_guarded secret s t =
        (s, ⟨401, Json.obj [("msg", Json.str "Unauthorized")]⟩)) := by
  refine ⟨?_, rfl, fun raw => rfl, ?_, ?_, ?_⟩
  · intro t ht
    cases hf : s.users.find? (fun u => e == some u.email && p == some u.password) with
    | none => simp [login, hf] at ht
    | some u =>
      have hu : e = some u.email ∧ p = some u.password := by
        simpa using List.find?_some hf
      have hmem := List.mem_of_find?_eq_some hf
      have htok : t = create_access_token secret u.id := by
        have := ht
        simp only [login, hf] at this
        exact (Option.some_inj.mp this).symm
      subst htok
      have hver : verify_token secret (create_access_token secret u.id) = some u.id := by
        simp [verify_token, create_access_token]
      exact ⟨u, hmem, hu.1, hu.2, hver,
        by simp [get_favorites_guarded, hver, get_favorites]⟩
  · intro i sig
    simp [verify_token]
  · intro i sig hne
    simp [verify_token, hne]
  · intro t hnone
    simp [get_favorites_guarded, hnone]

/-- Witness for C7: the token issued for the sample user's login is
accepted by the Auth Guard with identity 1. -/
theorem auth_roundtrip_spec_witness :
    verify_token "super-secret-key"
      (BearerToken.signed 1 "super-secret-key" false) = some 1 := by
  obtain ⟨u, hu, _, _, hv, _⟩ :=
    (auth_roundtrip_spec "super-secret-key" store1 (some "a@b.com") (some "x")).1
      (BearerToken.signed 1 "super-secret-key" false) (by rfl)
  have hud : u = demoUser := by simpa [store1] using hu
  rw [hud] at hv
  exact hv

/-- Serialization ignores the password, so it is determined by the
scrubbed user list. -/
theorem map_serialize_eq_of_scrub {l1 l2 : List User}
    (h : l1.map scrubPassword = l2.map scrubPassword) :
    l1.map User.serialize = l2.map User.serialize := by
  have hcomp : User.serialize ∘ scrubPassword = User.serialize :=
    funext (fun u => rfl)
  calc l1.map User.serialize
      = (l1.map scrubPassword).map User.serialize := by rw [List.map_map, hcomp]
    _ = (l2.map scrubPassword).map User.serialize := by rw [h]
    _ = l2.map User.serialize := by rw [List.map_map, hcomp]

/-- Whether an email is taken is determined by the scrubbed user
list. -/
theorem find?_email_isSome_eq {l1 l2 : List User}
    (h : l1.map scrubPassword = l2.map scrubPassword) (e : String) :
    (l1.find? (fun u => u.email == e)).isSome =
      (l2.find? (fun u => u.email == e)).isSome := by
  induction l1 generalizing l2 with
  | nil =>
    cases l2 with
    | nil => rfl
    | cons b t => simp [List.map_cons] at h
  | cons a t ih =>
    cases l2 with
    | nil => simp [List.map_cons] at h
    | cons b t2 =>
      simp only [List.map_cons, List.cons.injEq] at h
      have hemail : a.email = b.email := by
        have := congrArg User.email h.1
        simpa [scrubPassword] using this
      cases hpa : (a.email == e) with
      | true =>
        have hpb : (b.email == e) = true := by rw [← hemail]; exact hpa
        have hfa : List.find? (fun u => u.email == e) (a :: t) = some a :=
          List.find?_cons_of_pos t hpa
        have hfb : List.find? (fun u => u.email == e) (b :: t2) = some b :=
          List.find?_cons_of_pos t2 hpb
        rw [hfa, hfb]
        rfl
      | false =>
        have hpb : (b.email == e) = false := by rw [← hemail]; exact hpa
        have hfa : List.find? (fun u => u.email == e) (a :: t) =
            List.find? (fun u => u.email == e) t :=
          List.find?_cons_of_neg t (by simp [hpa])
        have hfb : List.find? (fun u => u.email == e) (b :: t2) =
            List.find? (fun u => u.email == e) t2 :=
          List.find?_cons_of_neg t2 (by simp [hpb])
        rw [hfa, hfb]
        exact ih h.2

/-- C10: no response body other than login's token depends on stored
passwords.  For any two stores that agree except on users' password
values, every endpoint except login produces the same response: in
particular `User.serialize` exposes only id and email, so GET /api/users
is identical on both. -/
theorem password_never_serialized (s1 s2 : Store) (h : SameButPasswords s1 s2)
    (i pid qid u : Nat) (e pw : Option String) (secret : String) (tok : BearerToken) :
    (get_users s1).2 = (get_users s2).2 ∧
    (get_people s1).2 = (get_people s2).2 ∧
    (get_planets s1).2 = (get_planets s2).2 ∧
    (get_person s1 i).2 = (get_person s2 i).2 ∧
    (get_planet s1 pid).2 = (get_planet s2 pid).2 ∧
    (get_favorites s1 u).2 = (get_favorites s2 u).2 ∧
    (get_favorites_guarded secret s1 tok).2 = (get_favorites_guarded secret s2 tok).2 ∧
    (add_favorite_planet s1 u pid).2 = (add_favorite_planet s2 u pid).2 ∧
    (add_favorite_person s1 u qid).2 = (add_favorite_person s2 u qid).2 ∧
    (remove_favorite_planet s1 u pid).2 = (remove_favorite_planet s2 u pid).2 ∧
    (remove_favorite_person s1 u qid).2 = (remove_favorite_person s2 u qid).2 ∧
    (signup s1 e pw).2 = (signup s2 e pw).2 := by
  obtain ⟨hu, hpe, hpl, hfav, hnu, hnf⟩ := h
  obtain ⟨u1, pe1, pl1, f1, n1, m1⟩ := s1
  obtain ⟨u2, pe2, pl2, f2, n2, m2⟩ := s2
  simp only at hu hpe hpl hfav hnu hnf
  subst hpe; subst hpl; subst hfav; subst hnu; subst hnf
  refine ⟨?_, rfl, rfl, ?_, ?_, rfl, ?_, ?_, ?_, ?_, ?_, ?_⟩
  · simp only [get_users]
    rw [map_serialize_eq_of_scrub hu]
  · cases hf : pe1.find? (fun p => p.id == i) <;> simp [get_person, hf]
  · cases hf : pl1.find? (fun p => p.id == pid) <;> simp [get_planet, hf]
  · cases hv : verify_token secret tok <;>
      simp [get_favorites_guarded, hv, get_favorites, favListBody, favoritesOf]
  · cases hf : pl1.find? (fun p => p.id == pid) with
    | none => simp [add_favorite_planet, hf]
    | some pl =>
      cases hff : f1.find? (fun f => f.user_id == u && f.planet_id == some pid) <;>
        simp [add_favorite_planet, hf, hff, favListBody, favoritesOf]
  · cases hf : pe1.find? (fun p => p.id == qid) with
    | none => simp [add_favorite_person, hf]
    | some pe =>
      cases hff : f1.find? (fun f => f.user_id == u && f.people_id == some qid) <;>
        simp [add_favorite_person, hf, hff, favListBody, favoritesOf]
  · cases hff : f1.find? (fun f => f.user_id == u && f.planet_id == some pid) <;>
      simp [remove_favorite_planet, hff, favListBody, favoritesOf]
  · cases hff : f1.find? (fun f => f.user_id == u && f.people_id == some qid) <;>
      simp [remove_favorite_person, hff, favListBody, favoritesOf]
  · cases e with
    | none => cases pw <;> rfl
    | some a =>
      cases pw with
      | none => rfl
      | some b =>
        simp only [signup]
        by_cases hab : (a.isEmpty || b.isEmpty) = true
        · simp [hab]
        · simp only [hab]
          have hs := find?_email_isSome_eq hu a
          cases hf1 : u1.find? (fun v => v.email == a) with
          | none =>
            rw [hf1] at hs
            cases hf2 : u2.find? (fun v => v.email == a) with
            | none => simp
            | some v => rw [hf2] at hs; simp at hs
          | some v =>
            rw [hf1] at hs
            cases hf2 : u2.find? (fun v => v.email == a) with
            | none => rw [hf2] at hs; simp at hs
            | some w => simp

/-- Witness for C10: the two sample stores differing only in the user's
password give identical GET /api/users responses. -/
theorem password_never_serialized_witness :
    (get_users store1).2 = (get_users store1b).2 :=
  (password_never_serialized store1 store1b ⟨rfl, rfl, rfl, rfl, rfl, rfl⟩
    1 1 1 1 none none "k" BearerToken.missing).1

/-- Witness for C6 at a concrete store: the sample user's credentials
log in with status 200. -/
theorem login_spec_witness :
    (login "super-secret-key" store1 (some "a@b.com") (some "x")).2.status ≠ 401 := by
  have h := (login_spec "super-secret-key" store1 (some "a@b.com") (some "x")).2.2
    ⟨demoUser, by simp [store1], rfl, rfl⟩
  rcases h with ⟨u, _, _, _, h200, _⟩
  simp [h200]

end SW
